import Mathlib

/-!
Verification of the MiniVision camera driver core (src/camera.c, src/format.c)
against its natural-language specification.

The C sources are shallowly embedded: machine integers become `Nat`/`Int`
(with an explicit `% 2 ^ 32` where 32-bit overflow can occur), fixed C arrays
become functions out of `Fin 3` / `Fin 4`, heap allocation is driven by an
explicit success oracle, and hardware side effects (DMA channel programming,
PIO frame triggering, interrupt-flag clearing, callback invocation) are
recorded as an explicit event trace.
-/

/-! ## Format calculus (src/format.c, src/camera/format.h) -/

/-- FORMAT_CODE(a,b,c,d): little-endian packing of four byte tags
    (`a | b << 8 | c << 16 | d << 24`). -/
def FORMAT_CODE (a b c d : Nat) : Nat :=
  a + b * 2 ^ 8 + c * 2 ^ 16 + d * 2 ^ 24

/-- FORMAT_YUYV: the packed luma-chroma format, tag bytes 'Y','U','Y','V'. -/
def FORMAT_YUYV : Nat := FORMAT_CODE 0x59 0x55 0x59 0x56

/-- FORMAT_RGB565: the packed 2-byte color format, tag bytes 'R','G','1','6'. -/
def FORMAT_RGB565 : Nat := FORMAT_CODE 0x52 0x47 0x31 0x36

/-- FORMAT_YUV422: the 3-plane planar luma-chroma format, tag bytes 'Y','U','1','6'. -/
def FORMAT_YUV422 : Nat := FORMAT_CODE 0x59 0x55 0x31 0x36

/-- format_num_planes: 1 for the packed formats, 3 for the planar one, 0 otherwise. -/
def format_num_planes (format : Nat) : Nat :=
  if format = FORMAT_YUYV ∨ format = FORMAT_RGB565 then 1
  else if format = FORMAT_YUV422 then 3
  else 0

/-- format_bytes_per_pixel: 2 for the packed formats, 1 for the planar one
    (independent of the plane index, as in the C source), 0 otherwise. -/
def format_bytes_per_pixel (format : Nat) (plane : Nat) : Nat :=
  if format = FORMAT_YUYV ∨ format = FORMAT_RGB565 then 2
  else if format = FORMAT_YUV422 then 1
  else 0

/-- format_hsub: horizontal subsampling; 2 for the planar format's chroma
    planes (`plane ? 2 : 1`), 1 everywhere else. -/
def format_hsub (format : Nat) (plane : Nat) : Nat :=
  if format = FORMAT_YUV422 then (if plane = 0 then 1 else 2) else 1

/-- format_stride: `format_bytes_per_pixel(format, plane) * width / format_hsub(format, plane)`.
    The C intermediate (`uint8_t * uint16_t` promoted to `int`) cannot overflow,
    so plain `Nat` arithmetic is exact. -/
def format_stride (format : Nat) (plane : Nat) (width : Nat) : Nat :=
  format_bytes_per_pixel format plane * width / format_hsub format plane

/-- format_plane_size: `format_stride(format, plane, width) * height`, computed in
    `uint32_t`, hence the explicit `% 2 ^ 32`. -/
def format_plane_size (format : Nat) (plane : Nat) (width height : Nat) : Nat :=
  format_stride format plane width * height % 2 ^ 32

/-! ## Hardware model: DMA and PIO configuration records

`dma_channel_config` models the RP2040 SDK config word restricted to the
fields this driver touches; `dma_channel_get_default_config` reproduces the
SDK defaults for those fields (read increment on, write increment off,
32-bit transfers, DREQ_FORCE = 0x3f, chain to the channel itself). -/

/-- DMA_SIZE_8 from the SDK `dma_channel_transfer_size` enum. -/
def DMA_SIZE_8 : Nat := 0

/-- DMA_SIZE_16 from the SDK `dma_channel_transfer_size` enum. -/
def DMA_SIZE_16 : Nat := 1

/-- DMA_SIZE_32 from the SDK `dma_channel_transfer_size` enum. -/
def DMA_SIZE_32 : Nat := 2

/-- Model of the SDK `dma_channel_config`, restricted to the fields the driver
    sets or that depend on the channel argument. -/
@[ext] structure dma_channel_config where
  transfer_size : Nat
  read_increment : Bool
  write_increment : Bool
  dreq : Nat
  chain_to : Int
deriving DecidableEq, Repr

/-- SDK `dma_channel_get_default_config`. -/
def dma_channel_get_default_config (channel : Int) : dma_channel_config :=
  { transfer_size := DMA_SIZE_32
    read_increment := true
    write_increment := false
    dreq := 0x3f
    chain_to := channel }

/-- SDK `pio_get_dreq`: the RX data-request line of a state machine of a PIO
    instance (instance index 0 or 1). -/
def pio_get_dreq (pio_index : Fin 2) (sm : Nat) (is_tx : Bool) : Nat :=
  pio_index.val * 8 + (if is_tx then 0 else 4) + sm

/-- Modelled from the spec: the generated PIO header (camera.pio.h) that defines
    `camera_pio_get_frame_sm_config` and `camera_pio_get_read_byte_sm_config` is
    not part of src/. The spec says each state-machine configuration is a pure
    function of the PIO instance, state-machine index, program load offset, base
    data pin and (for the byte-shift machines) the shift word width; the model
    records exactly those inputs. -/
@[ext] structure pio_sm_config where
  program : Nat
  pio_index : Fin 2
  sm : Nat
  offset : Nat
  base_pin : Nat
  shift_bits : Nat
deriving DecidableEq, Repr

/-- Modelled from the spec: frame-timing state-machine configuration
    (camera.pio.h is not in src/), a pure function of its arguments. -/
def camera_pio_get_frame_sm_config (pio_index : Fin 2) (sm offset base_pin : Nat) :
    pio_sm_config :=
  { program := 0, pio_index := pio_index, sm := sm, offset := offset
    base_pin := base_pin, shift_bits := 0 }

/-- Modelled from the spec: byte-shift state-machine configuration
    (camera.pio.h is not in src/), a pure function of its arguments. -/
def camera_pio_get_read_byte_sm_config (pio_index : Fin 2) (sm offset base_pin bits : Nat) :
    pio_sm_config :=
  { program := 1, pio_index := pio_index, sm := sm, offset := offset
    base_pin := base_pin, shift_bits := bits }

/-- C array index into a 3-element array (all in-bounds in every execution,
    since plane counts never exceed CAMERA_MAX_N_PLANES = 3). -/
def idx3 (i : Nat) : Fin 3 := ⟨i % 3, Nat.mod_lt i (by decide)⟩

/-- C array index into the 4-element state-machine configuration array. -/
def idx4 (i : Nat) : Fin 4 := ⟨i % 4, Nat.mod_lt i (by decide)⟩

/-! ## Data model (src/camera/camera.h) -/

/-- CAMERA_WIDTH_DIV8, the single supported width. -/
def CAMERA_WIDTH_DIV8 : Nat := 80

/-- CAMERA_HEIGHT_DIV8, the single supported height. -/
def CAMERA_HEIGHT_DIV8 : Nat := 60

/-- CAMERA_PIO_FRAME_SM, the state machine running the frame-timing program. -/
def CAMERA_PIO_FRAME_SM : Nat := 0

/-- struct camera_buffer. Plane data pointers are modelled as allocation
    identifiers (`Option Nat`, `none` = NULL). -/
@[ext] structure camera_buffer where
  format : Nat
  width : Nat
  height : Nat
  strides : Fin 3 → Nat
  sizes : Fin 3 → Nat
  data : Fin 3 → Option Nat

/-- A zero-initialized `struct camera_buffer` carrying format/width/height,
    as produced by the compound literal in camera_buffer_alloc. -/
def camera_buffer_zero (format width height : Nat) : camera_buffer :=
  { format := format, width := width, height := height
    strides := fun _ => 0, sizes := fun _ => 0, data := fun _ => none }

/-- struct camera_config: the derived HardwareConfig cached in the context. -/
@[ext] structure camera_config where
  format : Nat
  width : Nat
  height : Nat
  dma_transfers : Fin 3 → Nat
  dma_offset : Fin 3 → Nat
  dma_cfgs : Fin 3 → dma_channel_config
  sm_cfgs : Fin 4 → pio_sm_config

/-- Zero-initialized `struct camera_config`. -/
def camera_config_zero : camera_config :=
  { format := 0, width := 0, height := 0
    dma_transfers := fun _ => 0, dma_offset := fun _ => 0
    dma_cfgs := fun _ => ⟨0, false, false, 0, 0⟩
    sm_cfgs := fun _ => ⟨0, 0, 0, 0, 0, 0⟩ }

/-- struct camera_platform_config (the I2C function pointers are abstracted
    away; their observable outcomes enter through the init oracle). -/
@[ext] structure camera_platform_config where
  pio_index : Fin 2
  xclk_pin : Nat
  xclk_divider : Nat
  base_pin : Nat
  base_dma_channel : Int

/-- struct camera: the capture context. `platform` stands for
    `driver_host.platform`; callbacks are opaque identifiers
    (`Option Nat`, `none` = NULL function pointer). -/
@[ext] structure camera where
  platform : camera_platform_config
  frame_offset : Nat
  shift_byte_offset : Nat
  dma_channels : Fin 3 → Int
  config : camera_config
  pending : Option camera_buffer
  pending_cb : Option Nat
  cb_data : Nat

/-- `*camera = (struct camera){ 0 }`: the all-zero context. Note that this
    zero-fill leaves every `dma_channels` entry at 0, which is a valid DMA
    channel number, not the -1 sentinel camera_term tests for. -/
def camera_zero : camera :=
  { platform := ⟨0, 0, 0, 0, 0⟩
    frame_offset := 0
    shift_byte_offset := 0
    dma_channels := fun _ => 0
    config := camera_config_zero
    pending := none
    pending_cb := none
    cb_data := 0 }

/-! ## Buffer allocation (camera_buffer_alloc, src/camera.c)

`malloc` is modelled by a success oracle `ok : Nat → Bool` indexed by the
call number within one `camera_buffer_alloc` execution; a successful call
returns the call number as the allocation identifier and appends it to the
live-allocation list, and `free` removes an identifier from that list. -/

/-- The allocator state: the next allocation identifier and the list of
    currently live (not yet freed) allocations. -/
@[ext] structure alloc_state where
  next : Nat
  live : List Nat
deriving DecidableEq, Repr

/-- One `malloc` call under the success oracle `ok`. -/
def malloc_sim (ok : Nat → Bool) (s : alloc_state) : Option Nat × alloc_state :=
  if ok s.next then (some s.next, ⟨s.next + 1, s.live ++ [s.next]⟩)
  else (none, ⟨s.next + 1, s.live⟩)

/-- One `free` call. -/
def free_sim (s : alloc_state) (p : Nat) : alloc_state :=
  ⟨s.next, s.live.erase p⟩

/-- The per-plane loop of camera_buffer_alloc: record stride and size, then
    `malloc` the plane's data region; on allocation failure return the
    partially-built buffer (`goto error` in the C source). -/
def camera_buffer_alloc_planes (ok : Nat → Bool) (format width height : Nat) :
    List Nat → camera_buffer → alloc_state → Bool × camera_buffer × alloc_state
  | [], buf, s => (true, buf, s)
  | i :: rest, buf, s =>
    let buf :=
      { buf with
        strides := Function.update buf.strides (idx3 i) (format_stride format i width)
        sizes := Function.update buf.sizes (idx3 i) (format_plane_size format i width height) }
    match malloc_sim ok s with
    | (some p, s) =>
      camera_buffer_alloc_planes ok format width height rest
        { buf with data := Function.update buf.data (idx3 i) (some p) } s
    | (none, s) => (false, buf, s)

/-- camera_buffer_alloc: allocate the buffer structure, then each plane; on a
    plane allocation failure free every non-NULL plane pointer and the buffer
    structure itself and return NULL (`none`). -/
def camera_buffer_alloc (ok : Nat → Bool) (format width height : Nat) :
    Option camera_buffer × alloc_state :=
  match malloc_sim ok ⟨0, []⟩ with
  | (none, s) => (none, s)
  | (some bufid, s) =>
    let num_planes := format_num_planes format
    match camera_buffer_alloc_planes ok format width height
        (List.range num_planes) (camera_buffer_zero format width height) s with
    | (true, buf, s) => (some buf, s)
    | (false, buf, s) =>
      let s := (List.range num_planes).foldl
        (fun s i =>
          match buf.data (idx3 i) with
          | some p => free_sim s p
          | none => s) s
      (none, free_sim s bufid)

/-! ## Configuration (camera_configure, src/camera.c) -/

/-- camera_transfer_size: DMA transfer width per format and plane; the packed
    formats move 32-bit words on their single plane, the planar format 16-bit
    words on plane 0 and bytes on the chroma planes. The C default case
    returns 0, which is the value of DMA_SIZE_8. -/
def camera_transfer_size (format : Nat) (plane : Nat) : Nat :=
  if format = FORMAT_YUYV ∨ format = FORMAT_RGB565 then DMA_SIZE_32
  else if format = FORMAT_YUV422 then (if plane = 0 then DMA_SIZE_16 else DMA_SIZE_8)
  else 0

/-- __dma_transfer_size_to_bytes. -/
def __dma_transfer_size_to_bytes (dma : Nat) : Nat :=
  if dma = DMA_SIZE_8 then 1
  else if dma = DMA_SIZE_16 then 2
  else if dma = DMA_SIZE_32 then 4
  else 0

/-- camera_pixels_per_chunk: pixels consumed per pixel-loop iteration. -/
def camera_pixels_per_chunk (format : Nat) : Nat :=
  if format = FORMAT_YUYV ∨ format = FORMAT_RGB565 then 2
  else if format = FORMAT_YUV422 then 2
  else 1

/-- The body of camera_configure's per-plane loop: derive the plane's DMA
    channel configuration, FIFO-alignment byte offset, transfer count and
    byte-shift state-machine configuration. -/
def camera_configure_plane (cam : camera) (format width height : Nat)
    (cfg : camera_config) (i : Nat) : camera_config :=
  let xfer_size := camera_transfer_size format i
  let c := dma_channel_get_default_config (cam.dma_channels (idx3 i))
  let c := { c with
    transfer_size := xfer_size
    read_increment := false
    write_increment := true
    dreq := pio_get_dreq cam.platform.pio_index (i + 1) false }
  let xfer_bytes := __dma_transfer_size_to_bytes xfer_size
  { cfg with
    dma_cfgs := Function.update cfg.dma_cfgs (idx3 i) c
    dma_offset := Function.update cfg.dma_offset (idx3 i) (4 - xfer_bytes)
    dma_transfers := Function.update cfg.dma_transfers (idx3 i)
      (format_plane_size format i width height / xfer_bytes)
    sm_cfgs := Function.update cfg.sm_cfgs (idx4 (i + 1))
      (camera_pio_get_read_byte_sm_config cam.platform.pio_index (i + 1)
        cam.shift_byte_offset cam.platform.base_pin (xfer_bytes * 8)) }

/-- camera_configure: reject any width/height other than the single supported
    resolution before touching anything; otherwise push format/size to the
    sensor (external side effect), regenerate the frame state-machine
    configuration and every plane's DMA/state-machine parameters, store the
    new format/width/height, and reprogram the PIO block (hardware effect,
    no further context mutation). Returns 0 on success, -1 on rejection. -/
def camera_configure (cam : camera) (format width height : Nat) : Int × camera :=
  if width ≠ CAMERA_WIDTH_DIV8 ∨ height ≠ CAMERA_HEIGHT_DIV8 then (-1, cam)
  else
    let cfg := cam.config
    let cfg := { cfg with
      sm_cfgs := Function.update cfg.sm_cfgs (idx4 CAMERA_PIO_FRAME_SM)
        (camera_pio_get_frame_sm_config cam.platform.pio_index CAMERA_PIO_FRAME_SM
          cam.frame_offset cam.platform.base_pin) }
    let num_planes := format_num_planes format
    let cfg := (List.range num_planes).foldl (camera_configure_plane cam format width height) cfg
    let cfg := { cfg with format := format, width := width, height := height }
    (0, { cam with config := cfg })

/-! ## Capture (camera_do_frame and its wrappers, src/camera.c)

Hardware side effects are recorded as an event trace: per-plane DMA channel
arming, the frame trigger, callback invocations from the ISR, interrupt-flag
clears, and DMA channel releases from camera_term. -/

/-- Observable hardware/driver actions. -/
inductive event where
  | dma_configure (channel : Int) (cfg : dma_channel_config)
      (write_addr : Option Nat) (read_offset : Nat) (transfer_count : Nat)
  | trigger_frame (loops : Nat) (rows : Nat)
  | callback_call (cb : Nat) (buf : camera_buffer) (cb_data : Nat)
  | irq_clear (pio_index : Fin 2)
  | unclaim_channel (channel : Int)

/-- camera_do_frame: reject with -2 (Busy) while a request is pending; on a
    format/width/height mismatch with the current configuration, either
    implicitly reconfigure (note: the C code discards camera_configure's
    return value here) or reject with -1; then arm one DMA channel per plane,
    occupy the pending slot and trigger the frame program. The blocking
    variant merely busy-waits on the pending slot afterwards, which changes
    no driver state, so it is not part of the state transformer. -/
def camera_do_frame (cam : camera) (buf : camera_buffer)
    (complete_cb : Option Nat) (cb_data : Nat)
    (allow_reconfigure : Bool) (blocking : Bool) : Int × camera × List event :=
  if cam.pending.isSome then (-2, cam, [])
  else
    let rest : camera → Int × camera × List event := fun cam =>
      let num_planes := format_num_planes cam.config.format
      let evs := (List.range num_planes).map fun i =>
        event.dma_configure (cam.dma_channels (idx3 i)) (cam.config.dma_cfgs (idx3 i))
          (buf.data (idx3 i)) (cam.config.dma_offset (idx3 i))
          (cam.config.dma_transfers (idx3 i))
      let num_loops := buf.width / camera_pixels_per_chunk buf.format
      let cam := { cam with pending := some buf, pending_cb := complete_cb, cb_data := cb_data }
      (0, cam, evs ++ [event.trigger_frame num_loops buf.height])
    if cam.config.format ≠ buf.format ∨ cam.config.width ≠ buf.width ∨
        cam.config.height ≠ buf.height then
      if allow_reconfigure then
        rest (camera_configure cam buf.format buf.width buf.height).2
      else (-1, cam, [])
    else rest cam

/-- camera_capture_blocking: camera_do_frame with NULL callback, blocking. -/
def camera_capture_blocking (cam : camera) (into : camera_buffer)
    (allow_reconfigure : Bool) : Int × camera × List event :=
  camera_do_frame cam into none 0 allow_reconfigure true

/-- camera_capture_with_cb: camera_do_frame with the supplied callback,
    non-blocking. -/
def camera_capture_with_cb (cam : camera) (into : camera_buffer)
    (allow_reconfigure : Bool) (complete_cb : Option Nat) (cb_data : Nat) :
    Int × camera × List event :=
  camera_do_frame cam into complete_cb cb_data allow_reconfigure false

/-! ## Interrupt completion protocol (__camera_isr, camera_isr_pio0/1) -/

/-- __camera_isr: no-op when no context or no pending request; otherwise
    invoke the callback (if non-NULL) with the pending buffer and user data,
    then clear the pending slot. The context is passed and returned by value
    here, standing for the in-place mutation through the registered pointer. -/
def __camera_isr (ctx : Option camera) : Option camera × List event :=
  match ctx with
  | none => (none, [])
  | some cam =>
    match cam.pending with
    | none => (some cam, [])
    | some buf =>
      let evs :=
        match cam.pending_cb with
        | some cb => [event.callback_call cb buf cam.cb_data]
        | none => []
      (some { cam with pending := none }, evs)

/-- camera_isr_pio0 / camera_isr_pio1, unified over the PIO instance index:
    run __camera_isr on that instance's registered context, then clear the
    hardware interrupt flag. -/
def camera_isr (k : Fin 2) (irq_ctxs : Fin 2 → Option camera) :
    (Fin 2 → Option camera) × List event :=
  let r := __camera_isr (irq_ctxs k)
  (Function.update irq_ctxs k r.1, r.2 ++ [event.irq_clear k])

/-! ## Resource lifecycle (camera_init, camera_term, src/camera.c) -/

/-- Process-wide state: the interrupt dispatch table `irq_ctxs`, which
    interrupt lines are enabled, and the set of claimed DMA channels. -/
structure sys_state where
  irq_ctxs : Fin 2 → Option camera
  irq_enabled : Fin 2 → Bool
  claimed : List Nat

/-- The outcomes of camera_init's external collaborators: whether the sensor
    probe matched the identity byte, whether OV7670_begin reported OK, the two
    PIO program load offsets, and the channels handed out by successive
    dma_claim_unused_channel calls. -/
structure init_env where
  detect_ok : Bool
  begin_ok : Bool
  shift_byte_offset : Nat
  frame_offset : Nat
  free_channel : Nat → Nat

/-- camera_init: zero the context, record the platform, probe the sensor and
    run its bring-up (either failure returns -1 with nothing claimed), claim
    one DMA channel per plane slot (contiguous from base_dma_channel when
    non-negative, else from the free pool), load the PIO programs and register
    the context in the interrupt dispatch table. Clock setup, GPIO setup and
    sensor register writes are external hardware effects with no model state. -/
def camera_init (env : init_env) (params : camera_platform_config) (s : sys_state) :
    Int × camera × sys_state :=
  let cam := { camera_zero with platform := params }
  if ¬ env.detect_ok then (-1, cam, s)
  else if ¬ env.begin_ok then (-1, cam, s)
  else
    let p :=
      if params.base_dma_channel ≥ 0 then
        (List.range 3).foldl
          (fun (p : camera × sys_state) (i : Nat) =>
            let ch := params.base_dma_channel + (i : Int)
            ({ p.1 with dma_channels := Function.update p.1.dma_channels (idx3 i) ch },
             { p.2 with claimed := p.2.claimed ++ [ch.toNat] }))
          (cam, s)
      else
        (List.range 3).foldl
          (fun (p : camera × sys_state) i =>
            let ch := env.free_channel i
            ({ p.1 with dma_channels := Function.update p.1.dma_channels (idx3 i) (ch : Int) },
             { p.2 with claimed := p.2.claimed ++ [ch] }))
          (cam, s)
    let cam := { p.1 with
      shift_byte_offset := env.shift_byte_offset
      frame_offset := env.frame_offset }
    let s := { p.2 with
      irq_ctxs := Function.update p.2.irq_ctxs params.pio_index (some cam)
      irq_enabled := Function.update p.2.irq_enabled params.pio_index true }
    (0, cam, s)

/-- The body of camera_term's channel-release loop: unclaim the channel
    recorded at entry i when it is ≥ 0 and overwrite the entry with -1. -/
def camera_term_release (p : camera × sys_state × List event) (i : Nat) :
    camera × sys_state × List event :=
  let ch := p.1.dma_channels (idx3 i)
  if ch ≥ 0 then
    ({ p.1 with dma_channels := Function.update p.1.dma_channels (idx3 i) (-1) },
     { p.2.1 with claimed := p.2.1.claimed.erase ch.toNat },
     p.2.2 ++ [event.unclaim_channel ch])
  else p

/-- camera_term: disable the context's state machines (hardware only), disable
    and clear the interrupt registration for its PIO instance, release every
    DMA channel entry that is ≥ 0 (setting it to -1), and clear the pending
    slot without invoking any callback. -/
def camera_term (cam : camera) (s : sys_state) : camera × sys_state × List event :=
  let s := { s with
    irq_enabled := Function.update s.irq_enabled cam.platform.pio_index false
    irq_ctxs := Function.update s.irq_ctxs cam.platform.pio_index none }
  let p := (List.range 3).foldl camera_term_release (cam, s, [])
  ({ p.1 with pending := none, pending_cb := none, cb_data := 0 }, p.2.1, p.2.2)

/-! ## Fixtures: concrete contexts and environments used by the witnesses -/

/-- A context with an occupied pending slot. -/
def camera_busy : camera :=
  { camera_zero with pending := some (camera_buffer_zero FORMAT_RGB565 80 60) }

/-- A context with a pending request, a registered callback and user data. -/
def camera_pending_cb : camera :=
  { camera_zero with
    pending := some (camera_buffer_zero FORMAT_RGB565 80 60)
    pending_cb := some 7
    cb_data := 42 }

/-- An interrupt dispatch table with `camera_pending_cb` registered on PIO 0. -/
def irq_ctxs_test : Fin 2 → Option camera :=
  Function.update (fun _ => none) 0 (some camera_pending_cb)

/-- A context configured for RGB565 at the supported resolution. -/
def camera_test : camera :=
  (camera_configure camera_zero FORMAT_RGB565 CAMERA_WIDTH_DIV8 CAMERA_HEIGHT_DIV8).2

/-- An RGB565 buffer at the unsupported resolution 100x100. -/
def buffer_100 : camera_buffer := camera_buffer_zero FORMAT_RGB565 100 100

/-- Process-wide state before any initialization. -/
def sys_state_zero : sys_state := ⟨fun _ => none, fun _ => false, []⟩

/-- A platform configuration using PIO 0 and dynamic DMA channel allocation. -/
def platform_dynamic : camera_platform_config := ⟨0, 0, 0, 0, -1⟩

/-- An init environment in which the sensor probe never matches the identity
    byte, so camera_init fails before claiming any DMA channel. -/
def init_env_detect_fail : init_env := ⟨false, true, 0, 0, fun n => n⟩

/-! ## Helper lemmas -/

theorem list_range_one : List.range 1 = [0] := rfl

theorem list_range_three : List.range 3 = [0, 1, 2] := rfl

/-! ## Claim theorems -/

/-- Claim C1: while the pending-request slot is occupied, every capture entry
point (camera_do_frame, and hence camera_capture_blocking and
camera_capture_with_cb) returns the Busy code -2 — distinct from the other
capture failure (-1) and from success (0) — leaves the whole context
(pending buffer, callback, user data, DMA/PIO configuration and the
configured format/width/height) unchanged, and performs no hardware action. -/
theorem capture_busy_unchanged (cam : camera) (buf pbuf : camera_buffer)
    (cb : Option Nat) (cbd : Nat) (ar bl : Bool)
    (hp : cam.pending = some pbuf) :
    camera_do_frame cam buf cb cbd ar bl = (-2, cam, []) ∧
    camera_capture_blocking cam buf ar = (-2, cam, []) ∧
    camera_capture_with_cb cam buf ar cb cbd = (-2, cam, []) ∧
    ((-2 : Int) ≠ -1 ∧ (-2 : Int) ≠ 0) := by
  refine ⟨?_, ?_, ?_, by decide⟩ <;>
    simp [camera_do_frame, camera_capture_blocking, camera_capture_with_cb, hp]

/-- Witness for C1 at a concrete busy context. -/
theorem capture_busy_unchanged_witness :
    camera_busy.pending = some (camera_buffer_zero FORMAT_RGB565 80 60) ∧
    (camera_do_frame camera_busy (camera_buffer_zero FORMAT_RGB565 80 60) none 0 true false =
        (-2, camera_busy, []) ∧
      camera_capture_blocking camera_busy (camera_buffer_zero FORMAT_RGB565 80 60) true =
        (-2, camera_busy, []) ∧
      camera_capture_with_cb camera_busy (camera_buffer_zero FORMAT_RGB565 80 60) true none 0 =
        (-2, camera_busy, []) ∧
      ((-2 : Int) ≠ -1 ∧ (-2 : Int) ≠ 0)) :=
  ⟨rfl, capture_busy_unchanged camera_busy (camera_buffer_zero FORMAT_RGB565 80 60)
    (camera_buffer_zero FORMAT_RGB565 80 60) none 0 true false rfl⟩

/-- Claim C2 (evaluation at the failing input): with the context configured
for RGB565 at the supported 80x60 resolution and no pending request, a
capture into an RGB565 100x100 buffer with allow_reconfigure set reports
success (0) even though the implicit camera_configure call failed (-1,
context unchanged), and it triggers the frame with the context's configured
width/height still 80x60, different from the buffer's 100x100 — refuting the
claim that capture succeeds only via a successful implicit configure. -/
theorem capture_ignores_failed_reconfigure :
    camera_test.config.format = FORMAT_RGB565 ∧
    camera_test.config.width = CAMERA_WIDTH_DIV8 ∧
    camera_test.config.height = CAMERA_HEIGHT_DIV8 ∧
    camera_test.pending = none ∧
    buffer_100.width = 100 ∧ buffer_100.height = 100 ∧
    (camera_configure camera_test FORMAT_RGB565 100 100).1 = -1 ∧
    (camera_configure camera_test FORMAT_RGB565 100 100).2 = camera_test ∧
    (camera_do_frame camera_test buffer_100 none 0 true false).1 = 0 ∧
    (camera_do_frame camera_test buffer_100 none 0 true false).2.1.config.width =
      CAMERA_WIDTH_DIV8 ∧
    (camera_do_frame camera_test buffer_100 none 0 true false).2.1.config.height =
      CAMERA_HEIGHT_DIV8 ∧
    (camera_do_frame camera_test buffer_100 none 0 true false).2.2.getLast? =
      some (event.trigger_frame 50 100) :=
  ⟨rfl, rfl, rfl, rfl, rfl, rfl, rfl, rfl, rfl, rfl, rfl, rfl⟩

/-- Claim C2 (the part of the claim that does hold): when the buffer's
format/width/height triple differs from the context's configuration and
allow_reconfigure is false, the capture fails with -1 (not the Busy code -2)
and the context is completely unchanged. -/
theorem capture_mismatch_not_allowed_fails (cam : camera) (buf : camera_buffer)
    (cb : Option Nat) (cbd : Nat) (bl : Bool)
    (hp : cam.pending = none)
    (hm : cam.config.format ≠ buf.format ∨ cam.config.width ≠ buf.width ∨
      cam.config.height ≠ buf.height) :
    camera_do_frame cam buf cb cbd false bl = (-1, cam, []) ∧ ((-1 : Int) ≠ -2) := by
  refine ⟨?_, by decide⟩
  simp [camera_do_frame, hp, if_pos hm]

/-- Witness for the C2 no-reconfigure clause at a concrete mismatched input. -/
theorem capture_mismatch_not_allowed_fails_witness :
    (camera_test.pending = none ∧
      (camera_test.config.format ≠ buffer_100.format ∨
        camera_test.config.width ≠ buffer_100.width ∨
        camera_test.config.height ≠ buffer_100.height)) ∧
    (camera_do_frame camera_test buffer_100 none 0 false false = (-1, camera_test, []) ∧
      ((-1 : Int) ≠ -2)) :=
  ⟨⟨rfl, by decide⟩,
   capture_mismatch_not_allowed_fails camera_test buffer_100 none 0 false rfl (by decide)⟩

/-- Claim C3: for every supported format code, every plane index below the
format's plane count, and all widths and heights, the format-calculus
functions are pure Lean functions satisfying
`plane_size = stride * height` (computed, like the C source, in 32-bit
arithmetic, and exactly whenever the product fits in 32 bits) and
`stride = bytes_per_pixel * width / hsub`, where hsub is 1 for all planes
except the planar format's chroma planes (hsub 2, 1 byte per pixel). -/
theorem format_calculus_laws (fmt plane w h : Nat)
    (hf : fmt = FORMAT_YUYV ∨ fmt = FORMAT_RGB565 ∨ fmt = FORMAT_YUV422)
    (hp : plane < format_num_planes fmt) :
    format_plane_size fmt plane w h = format_stride fmt plane w * h % 2 ^ 32 ∧
    (format_stride fmt plane w * h < 2 ^ 32 →
      format_plane_size fmt plane w h = format_stride fmt plane w * h) ∧
    format_stride fmt plane w = format_bytes_per_pixel fmt plane * w / format_hsub fmt plane ∧
    format_hsub fmt plane = (if fmt = FORMAT_YUV422 ∧ plane ≠ 0 then 2 else 1) ∧
    (fmt = FORMAT_YUV422 ∧ plane ≠ 0 → format_bytes_per_pixel fmt plane = 1) := by
  refine ⟨rfl, fun hlt => ?_, rfl, ?_, ?_⟩
  · simpa [format_plane_size] using Nat.mod_eq_of_lt hlt
  · rcases hf with rfl | rfl | rfl
    · simp [format_hsub, FORMAT_YUYV, FORMAT_YUV422, FORMAT_CODE]
    · simp [format_hsub, FORMAT_RGB565, FORMAT_YUV422, FORMAT_CODE]
    · by_cases hpl : plane = 0 <;> simp [format_hsub, hpl]
  · rintro ⟨rfl, hpl⟩
    simp [format_bytes_per_pixel, FORMAT_YUV422, FORMAT_YUYV, FORMAT_RGB565, FORMAT_CODE]

/-- Witness for C3 at the planar format's first chroma plane at 80x60. -/
theorem format_calculus_laws_witness :
    ((FORMAT_YUV422 = FORMAT_YUYV ∨ FORMAT_YUV422 = FORMAT_RGB565 ∨
        FORMAT_YUV422 = FORMAT_YUV422) ∧ 1 < format_num_planes FORMAT_YUV422) ∧
    (format_plane_size FORMAT_YUV422 1 80 60 = format_stride FORMAT_YUV422 1 80 * 60 % 2 ^ 32 ∧
      (format_stride FORMAT_YUV422 1 80 * 60 < 2 ^ 32 →
        format_plane_size FORMAT_YUV422 1 80 60 = format_stride FORMAT_YUV422 1 80 * 60) ∧
      format_stride FORMAT_YUV422 1 80 =
        format_bytes_per_pixel FORMAT_YUV422 1 * 80 / format_hsub FORMAT_YUV422 1 ∧
      format_hsub FORMAT_YUV422 1 = (if FORMAT_YUV422 = FORMAT_YUV422 ∧ (1 : Nat) ≠ 0 then 2 else 1) ∧
      (FORMAT_YUV422 = FORMAT_YUV422 ∧ (1 : Nat) ≠ 0 → format_bytes_per_pixel FORMAT_YUV422 1 = 1)) :=
  ⟨⟨Or.inr (Or.inr rfl), by decide⟩,
   format_calculus_laws FORMAT_YUV422 1 80 60 (Or.inr (Or.inr rfl)) (by decide)⟩

/-- Claim C4: for every supported format, width, height and allocation
outcome, camera_buffer_alloc either returns a buffer whose per-plane strides
and sizes exactly equal the format-calculus results for every plane, or
fails returning NULL with every previously made allocation released (empty
live-allocation list — no partial buffer escapes). In particular RGB565 at
80x60 yields 1 plane with stride 160 and size 9600, and the planar format at
80x60 yields 3 planes with strides 80/40/40 and sizes 4800/2400/2400. -/
theorem buffer_alloc_exact_or_released (fmt w h : Nat) (ok : Nat → Bool)
    (hf : fmt = FORMAT_YUYV ∨ fmt = FORMAT_RGB565 ∨ fmt = FORMAT_YUV422) :
    (∀ buf s, camera_buffer_alloc ok fmt w h = (some buf, s) →
      ∀ i : Fin 3, (i : Nat) < format_num_planes fmt →
        buf.strides i = format_stride fmt i w ∧
        buf.sizes i = format_plane_size fmt i w h) ∧
    ((camera_buffer_alloc ok fmt w h).1 = none →
      (camera_buffer_alloc ok fmt w h).2.live = []) ∧
    ((camera_buffer_alloc (fun _ => true) FORMAT_RGB565 80 60).1.map
        (fun b => (b.strides 0, b.sizes 0)) = some (160, 9600) ∧
      format_num_planes FORMAT_RGB565 = 1) ∧
    ((camera_buffer_alloc (fun _ => true) FORMAT_YUV422 80 60).1.map
        (fun b => (b.strides 0, b.strides 1, b.strides 2, b.sizes 0, b.sizes 1, b.sizes 2)) =
        some (80, 40, 40, 4800, 2400, 2400) ∧
      format_num_planes FORMAT_YUV422 = 3) := by
  refine ⟨?_, ?_, ⟨by decide, by decide⟩, ⟨by decide, by decide⟩⟩
  · intro buf s heq i hi
    rcases hf with rfl | rfl | rfl <;> fin_cases i <;>
      cases h0 : ok 0 <;> cases h1 : ok 1 <;> cases h2 : ok 2 <;> cases h3 : ok 3 <;>
        simp_all [camera_buffer_alloc, camera_buffer_alloc_planes, malloc_sim, free_sim,
          format_num_planes, list_range_one, list_range_three, idx3, Function.update,
          camera_buffer_zero, FORMAT_YUYV, FORMAT_RGB565, FORMAT_YUV422, FORMAT_CODE] <;>
        (try (obtain ⟨rfl, rfl⟩ := heq)) <;>
        simp [Function.update]
  · intro heq
    revert heq
    rcases hf with rfl | rfl | rfl <;>
      cases h0 : ok 0 <;> cases h1 : ok 1 <;> cases h2 : ok 2 <;> cases h3 : ok 3 <;>
        simp_all [camera_buffer_alloc, camera_buffer_alloc_planes, malloc_sim, free_sim,
          format_num_planes, list_range_one, list_range_three, idx3, Function.update,
          camera_buffer_zero, FORMAT_YUYV, FORMAT_RGB565, FORMAT_YUV422, FORMAT_CODE]

/-- Witness for C4 at the planar format with an oracle that fails the second
plane allocation. -/
theorem buffer_alloc_exact_or_released_witness :
    (FORMAT_YUV422 = FORMAT_YUYV ∨ FORMAT_YUV422 = FORMAT_RGB565 ∨
      FORMAT_YUV422 = FORMAT_YUV422) ∧
    ((∀ buf s, camera_buffer_alloc (fun n => n < 2) FORMAT_YUV422 80 60 = (some buf, s) →
        ∀ i : Fin 3, (i : Nat) < format_num_planes FORMAT_YUV422 →
          buf.strides i = format_stride FORMAT_YUV422 i 80 ∧
          buf.sizes i = format_plane_size FORMAT_YUV422 i 80 60) ∧
      ((camera_buffer_alloc (fun n => n < 2) FORMAT_YUV422 80 60).1 = none →
        (camera_buffer_alloc (fun n => n < 2) FORMAT_YUV422 80 60).2.live = []) ∧
      ((camera_buffer_alloc (fun _ => true) FORMAT_RGB565 80 60).1.map
          (fun b => (b.strides 0, b.sizes 0)) = some (160, 9600) ∧
        format_num_planes FORMAT_RGB565 = 1) ∧
      ((camera_buffer_alloc (fun _ => true) FORMAT_YUV422 80 60).1.map
          (fun b => (b.strides 0, b.strides 1, b.strides 2, b.sizes 0, b.sizes 1, b.sizes 2)) =
          some (80, 40, 40, 4800, 2400, 2400) ∧
        format_num_planes FORMAT_YUV422 = 3)) :=
  ⟨Or.inr (Or.inr rfl),
   buffer_alloc_exact_or_released FORMAT_YUV422 80 60 (fun n => n < 2)
     (Or.inr (Or.inr rfl))⟩

/-- Claim C5: camera_configure rejects, with the generic failure -1 and a
completely unchanged context (format, width, height, DMA configurations and
state-machine configurations untouched), every width/height pair other than
the single supported resolution 80x60; at the supported resolution it
returns success for every format. -/
theorem configure_unsupported_rejected (cam : camera) (fmt w h : Nat)
    (hwh : ¬ (w = CAMERA_WIDTH_DIV8 ∧ h = CAMERA_HEIGHT_DIV8)) :
    camera_configure cam fmt w h = (-1, cam) ∧
    (camera_configure cam fmt CAMERA_WIDTH_DIV8 CAMERA_HEIGHT_DIV8).1 = 0 := by
  constructor
  · have h' : w ≠ CAMERA_WIDTH_DIV8 ∨ h ≠ CAMERA_HEIGHT_DIV8 := by tauto
    simp only [camera_configure, if_pos h']
  · simp [camera_configure]

/-- Witness for C5 at the unsupported resolution 100x100. -/
theorem configure_unsupported_rejected_witness :
    ¬ ((100 : Nat) = CAMERA_WIDTH_DIV8 ∧ (100 : Nat) = CAMERA_HEIGHT_DIV8) ∧
    (camera_configure camera_zero FORMAT_RGB565 100 100 = (-1, camera_zero) ∧
      (camera_configure camera_zero FORMAT_RGB565 CAMERA_WIDTH_DIV8 CAMERA_HEIGHT_DIV8).1 = 0) :=
  ⟨by decide,
   configure_unsupported_rejected camera_zero FORMAT_RGB565 100 100 (by decide)⟩

/-- Claim C6: for every supported format and every plane below its plane
count, camera_configure at the supported resolution derives the plane's DMA
transfer width as 32 bits (DMA_SIZE_32) for both packed formats, and for the
planar format 16 bits (DMA_SIZE_16) on plane 0 and 8 bits (DMA_SIZE_8) on
planes 1 and 2; the FIFO-alignment byte offset as 4 minus the transfer width
in bytes; and the transfer count as the plane's byte size divided by the
transfer width in bytes. -/
theorem configure_dma_parameters (cam : camera) (fmt : Nat)
    (hf : fmt = FORMAT_YUYV ∨ fmt = FORMAT_RGB565 ∨ fmt = FORMAT_YUV422)
    (i : Fin 3) (hi : (i : Nat) < format_num_planes fmt) :
    ((camera_configure cam fmt CAMERA_WIDTH_DIV8 CAMERA_HEIGHT_DIV8).2.config.dma_cfgs i).transfer_size =
      (if fmt = FORMAT_YUV422 then (if (i : Nat) = 0 then DMA_SIZE_16 else DMA_SIZE_8)
       else DMA_SIZE_32) ∧
    (camera_configure cam fmt CAMERA_WIDTH_DIV8 CAMERA_HEIGHT_DIV8).2.config.dma_offset i =
      4 - (if fmt = FORMAT_YUV422 then (if (i : Nat) = 0 then 2 else 1) else 4) ∧
    (camera_configure cam fmt CAMERA_WIDTH_DIV8 CAMERA_HEIGHT_DIV8).2.config.dma_transfers i =
      format_plane_size fmt i CAMERA_WIDTH_DIV8 CAMERA_HEIGHT_DIV8 /
        (if fmt = FORMAT_YUV422 then (if (i : Nat) = 0 then 2 else 1) else 4) := by
  rcases hf with rfl | rfl | rfl <;> fin_cases i <;>
    simp_all [camera_configure, camera_configure_plane, camera_transfer_size,
      __dma_transfer_size_to_bytes, dma_channel_get_default_config, format_num_planes,
      list_range_one, list_range_three, idx3, idx4, Function.update,
      CAMERA_WIDTH_DIV8, CAMERA_HEIGHT_DIV8, CAMERA_PIO_FRAME_SM,
      DMA_SIZE_8, DMA_SIZE_16, DMA_SIZE_32,
      FORMAT_YUYV, FORMAT_RGB565, FORMAT_YUV422, FORMAT_CODE]

/-- Witness for C6 at the planar format's plane 1. -/
theorem configure_dma_parameters_witness :
    ((FORMAT_YUV422 = FORMAT_YUYV ∨ FORMAT_YUV422 = FORMAT_RGB565 ∨
        FORMAT_YUV422 = FORMAT_YUV422) ∧ ((1 : Fin 3) : Nat) < format_num_planes FORMAT_YUV422) ∧
    (((camera_configure camera_zero FORMAT_YUV422 CAMERA_WIDTH_DIV8 CAMERA_HEIGHT_DIV8).2.config.dma_cfgs 1).transfer_size =
        (if FORMAT_YUV422 = FORMAT_YUV422 then (if ((1 : Fin 3) : Nat) = 0 then DMA_SIZE_16 else DMA_SIZE_8)
         else DMA_SIZE_32) ∧
      (camera_configure camera_zero FORMAT_YUV422 CAMERA_WIDTH_DIV8 CAMERA_HEIGHT_DIV8).2.config.dma_offset 1 =
        4 - (if FORMAT_YUV422 = FORMAT_YUV422 then (if ((1 : Fin 3) : Nat) = 0 then 2 else 1) else 4) ∧
      (camera_configure camera_zero FORMAT_YUV422 CAMERA_WIDTH_DIV8 CAMERA_HEIGHT_DIV8).2.config.dma_transfers 1 =
        format_plane_size FORMAT_YUV422 ((1 : Fin 3) : Nat) CAMERA_WIDTH_DIV8 CAMERA_HEIGHT_DIV8 /
          (if FORMAT_YUV422 = FORMAT_YUV422 then (if ((1 : Fin 3) : Nat) = 0 then 2 else 1) else 4)) :=
  ⟨⟨Or.inr (Or.inr rfl), by decide⟩,
   configure_dma_parameters camera_zero FORMAT_YUV422 (Or.inr (Or.inr rfl)) 1 (by decide)⟩

/-- Claim C7: on a frame-completion interrupt for a PIO instance, when no
context is registered or no request is pending the handler changes nothing
except clearing the hardware flag; when a context with a pending request is
registered it invokes the stored callback (when non-NULL) with the pending
buffer and user data, then clears the pending slot, and finally clears the
hardware interrupt flag. -/
theorem isr_completion_protocol (k : Fin 2) (ctxs : Fin 2 → Option camera) :
    (ctxs k = none → camera_isr k ctxs = (ctxs, [event.irq_clear k])) ∧
    (∀ cam, ctxs k = some cam → cam.pending = none →
      camera_isr k ctxs = (ctxs, [event.irq_clear k])) ∧
    (∀ cam buf, ctxs k = some cam → cam.pending = some buf →
      camera_isr k ctxs =
        (Function.update ctxs k (some { cam with pending := none }),
          (match cam.pending_cb with
            | some cb => [event.callback_call cb buf cam.cb_data]
            | none => []) ++ [event.irq_clear k])) := by
  refine ⟨fun h => ?_, fun cam h hp => ?_, fun cam buf h hp => ?_⟩
  · simp only [camera_isr, h, __camera_isr]
    rw [← h, Function.update_eq_self]
    rfl
  · simp only [camera_isr, h, __camera_isr, hp]
    rw [← h, Function.update_eq_self]
    rfl
  · simp only [camera_isr, h, __camera_isr, hp]

/-- Witness for C7 at a registered context with a pending request and a
non-NULL callback. -/
theorem isr_completion_protocol_witness :
    irq_ctxs_test 0 = some camera_pending_cb ∧
    camera_pending_cb.pending = some (camera_buffer_zero FORMAT_RGB565 80 60) ∧
    camera_isr 0 irq_ctxs_test =
      (Function.update irq_ctxs_test 0 (some { camera_pending_cb with pending := none }),
        (match camera_pending_cb.pending_cb with
          | some cb => [event.callback_call cb (camera_buffer_zero FORMAT_RGB565 80 60)
              camera_pending_cb.cb_data]
          | none => []) ++ [event.irq_clear 0]) :=
  ⟨rfl, rfl, (isr_completion_protocol 0 irq_ctxs_test).2.2 camera_pending_cb
    (camera_buffer_zero FORMAT_RGB565 80 60) rfl rfl⟩

/-- Claim C8 (evaluation at the failing input): when camera_init fails at
sensor detection it returns -1 having claimed no DMA channel, but the
zero-initialization `*camera = (struct camera){ 0 }` leaves all three
dma_channels entries at 0 — a valid channel number, not the -1 sentinel that
camera_term tests for — so a subsequent camera_term issues
dma_channel_unclaim(0) three times for a context that never claimed any
channel, refuting the claim that terminate releases exactly the channels the
context actually claimed. -/
theorem term_after_failed_init_unclaims_channel_zero :
    (camera_init init_env_detect_fail platform_dynamic sys_state_zero).1 = -1 ∧
    (camera_init init_env_detect_fail platform_dynamic sys_state_zero).2.2.claimed = [] ∧
    ((camera_init init_env_detect_fail platform_dynamic sys_state_zero).2.1.dma_channels 0 = 0 ∧
      (camera_init init_env_detect_fail platform_dynamic sys_state_zero).2.1.dma_channels 1 = 0 ∧
      (camera_init init_env_detect_fail platform_dynamic sys_state_zero).2.1.dma_channels 2 = 0) ∧
    (camera_term (camera_init init_env_detect_fail platform_dynamic sys_state_zero).2.1
        (camera_init init_env_detect_fail platform_dynamic sys_state_zero).2.2).2.2 =
      [event.unclaim_channel 0, event.unclaim_channel 0, event.unclaim_channel 0] :=
  ⟨rfl, rfl, ⟨rfl, rfl, rfl⟩, rfl⟩

theorem camera_term_release_irq_ctxs (p : camera × sys_state × List event) (i : Nat) :
    (camera_term_release p i).2.1.irq_ctxs = p.2.1.irq_ctxs := by
  rw [camera_term_release]
  split <;> rfl

theorem camera_term_release_irq_enabled (p : camera × sys_state × List event) (i : Nat) :
    (camera_term_release p i).2.1.irq_enabled = p.2.1.irq_enabled := by
  rw [camera_term_release]
  split <;> rfl

theorem camera_term_release_events (p : camera × sys_state × List event) (i : Nat) :
    ∀ e ∈ (camera_term_release p i).2.2, e ∈ p.2.2 ∨ ∃ ch, e = event.unclaim_channel ch := by
  rw [camera_term_release]
  split
  · intro e he
    simp only [List.mem_append, List.mem_singleton] at he
    rcases he with he | he
    · exact Or.inl he
    · exact Or.inr ⟨_, he⟩
  · exact fun e he => Or.inl he

theorem camera_term_release_foldl (l : List Nat) :
    ∀ p : camera × sys_state × List event,
      (l.foldl camera_term_release p).2.1.irq_ctxs = p.2.1.irq_ctxs ∧
      (l.foldl camera_term_release p).2.1.irq_enabled = p.2.1.irq_enabled ∧
      (∀ e ∈ (l.foldl camera_term_release p).2.2,
        e ∈ p.2.2 ∨ ∃ ch, e = event.unclaim_channel ch) := by
  induction l with
  | nil => exact fun p => ⟨rfl, rfl, fun e he => Or.inl he⟩
  | cons x xs ih =>
    intro p
    refine ⟨?_, ?_, ?_⟩
    · rw [List.foldl_cons, (ih _).1, camera_term_release_irq_ctxs]
    · rw [List.foldl_cons, (ih _).2.1, camera_term_release_irq_enabled]
    · intro e he
      rw [List.foldl_cons] at he
      rcases (ih _).2.2 e he with h | h
      · exact camera_term_release_events p x e h
      · exact Or.inr h

/-- Claim C8 (the parts of the claim that do hold): for every context and
process-wide state, camera_term clears the interrupt registration for the
context's PIO instance (dispatch-table slot set to NULL, interrupt line
disabled) and clears the pending slot without emitting any callback event:
every event it produces is a DMA channel release. -/
theorem term_clears_registration_and_pending (cam : camera) (s : sys_state) :
    (camera_term cam s).2.1.irq_ctxs cam.platform.pio_index = none ∧
    (camera_term cam s).2.1.irq_enabled cam.platform.pio_index = false ∧
    (camera_term cam s).1.pending = none ∧
    (camera_term cam s).1.pending_cb = none ∧
    (∀ e ∈ (camera_term cam s).2.2, ∃ ch, e = event.unclaim_channel ch) := by
  have h := camera_term_release_foldl (List.range 3)
    (cam,
     { s with
       irq_enabled := Function.update s.irq_enabled cam.platform.pio_index false
       irq_ctxs := Function.update s.irq_ctxs cam.platform.pio_index none },
     [])
  refine ⟨?_, ?_, rfl, rfl, ?_⟩
  · rw [camera_term]
    show (List.foldl camera_term_release _ _).2.1.irq_ctxs _ = none
    rw [h.1]
    simp
  · rw [camera_term]
    show (List.foldl camera_term_release _ _).2.1.irq_enabled _ = false
    rw [h.2.1]
    simp
  · intro e he
    rcases h.2.2 e he with h' | h'
    · simp at h'
    · exact h'

/-- Claim C9: camera_configure is idempotent at the supported resolution —
for every context and supported format, calling it twice with identical
(format, width, height) arguments produces a context (in particular a derived
HardwareConfig: format, width, height, per-plane DMA configurations, DMA
offsets, DMA transfer counts and PIO state-machine configurations) identical
to the result of a single call. -/
theorem configure_idempotent (cam : camera) (fmt : Nat)
    (hf : fmt = FORMAT_YUYV ∨ fmt = FORMAT_RGB565 ∨ fmt = FORMAT_YUV422) :
    camera_configure (camera_configure cam fmt CAMERA_WIDTH_DIV8 CAMERA_HEIGHT_DIV8).2
        fmt CAMERA_WIDTH_DIV8 CAMERA_HEIGHT_DIV8 =
      camera_configure cam fmt CAMERA_WIDTH_DIV8 CAMERA_HEIGHT_DIV8 := by
  rcases hf with rfl | rfl | rfl <;>
  · simp [camera_configure, camera_configure_plane, format_num_planes,
      FORMAT_YUYV, FORMAT_RGB565, FORMAT_YUV422, FORMAT_CODE,
      list_range_one, list_range_three,
      CAMERA_WIDTH_DIV8, CAMERA_HEIGHT_DIV8, CAMERA_PIO_FRAME_SM]
    all_goals and_intros
    all_goals funext j
    all_goals fin_cases j <;> simp [Function.update, idx3, idx4]

/-- Witness for C9 at a concrete zero context with the RGB565 format. -/
theorem configure_idempotent_witness :
    (FORMAT_RGB565 = FORMAT_YUYV ∨ FORMAT_RGB565 = FORMAT_RGB565 ∨
      FORMAT_RGB565 = FORMAT_YUV422) ∧
    camera_configure (camera_configure camera_zero FORMAT_RGB565 CAMERA_WIDTH_DIV8 CAMERA_HEIGHT_DIV8).2
        FORMAT_RGB565 CAMERA_WIDTH_DIV8 CAMERA_HEIGHT_DIV8 =
      camera_configure camera_zero FORMAT_RGB565 CAMERA_WIDTH_DIV8 CAMERA_HEIGHT_DIV8 :=
  ⟨Or.inr (Or.inl rfl), configure_idempotent camera_zero FORMAT_RGB565 (Or.inr (Or.inl rfl))⟩

/-- Claim C10: for every format code that is none of the three supported
formats (given the buffer-structure malloc succeeds), camera_buffer_alloc
returns a non-NULL buffer with zero planes: format_num_planes is 0, exactly
one allocation (the structure itself) is made, and all strides, sizes and
data pointers of the returned buffer are zero/NULL — it does not return the
NULL allocation-failure sentinel. -/
theorem alloc_unrecognized_format (fmt w h : Nat) (ok : Nat → Bool)
    (h1 : fmt ≠ FORMAT_YUYV) (h2 : fmt ≠ FORMAT_RGB565) (h3 : fmt ≠ FORMAT_YUV422)
    (hok : ok 0 = true) :
    format_num_planes fmt = 0 ∧
    camera_buffer_alloc ok fmt w h = (some (camera_buffer_zero fmt w h), ⟨1, [0]⟩) ∧
    (∀ i, (camera_buffer_zero fmt w h).strides i = 0 ∧
      (camera_buffer_zero fmt w h).sizes i = 0 ∧
      (camera_buffer_zero fmt w h).data i = none) := by
  have hnp : format_num_planes fmt = 0 := by simp [format_num_planes, h1, h2, h3]
  refine ⟨hnp, ?_, fun i => ⟨rfl, rfl, rfl⟩⟩
  simp [camera_buffer_alloc, malloc_sim, hok, hnp, camera_buffer_alloc_planes]

/-- Witness for C10 at the unrecognized format code 0. -/
theorem alloc_unrecognized_format_witness :
    ((0 : Nat) ≠ FORMAT_YUYV ∧ (0 : Nat) ≠ FORMAT_RGB565 ∧ (0 : Nat) ≠ FORMAT_YUV422 ∧
      (fun _ : Nat => true) 0 = true) ∧
    (format_num_planes 0 = 0 ∧
      camera_buffer_alloc (fun _ => true) 0 80 60 = (some (camera_buffer_zero 0 80 60), ⟨1, [0]⟩) ∧
      (∀ i, (camera_buffer_zero 0 80 60).strides i = 0 ∧
        (camera_buffer_zero 0 80 60).sizes i = 0 ∧
        (camera_buffer_zero 0 80 60).data i = none)) :=
  ⟨⟨by decide, by decide, by decide, rfl⟩,
   alloc_unrecognized_format 0 80 60 (fun _ => true) (by decide) (by decide) (by decide) rfl⟩
